import Mathlib

/-
Verification of the docker-nexus container engine (src/app.js) against its
natural-language specification.

The file shallowly embeds the core of src/app.js into Lean:
the "essence" helpers (rust.result, rust.own, go.concurrent), the
IsolationModule, the ImageModule, the RuntimeModule and the engine-level
operation router.  JavaScript mutable state is passed explicitly; the
JavaScript exception channel is `Except String`; `rust.result` values are the
`RResult` type.  Ambient effects (clock reads, Math.random draws, generated
ids, file reads) are explicit parameters, as noted at each definition.
-/

set_option maxHeartbeats 1000000
set_option maxRecDepth 8000

namespace DockerNexus

/-! ## rust essence (src/app.js lines 73-119) -/

/-- `rust.result(value, error)`: a tagged success/failure value
(src/app.js lines 104-118).  `rust.result(v)` is `ok v`,
`rust.result(null, e)` is `err e`. -/
inductive RResult (α : Type) where
  | ok (value : α)
  | err (error : String)
deriving DecidableEq

/-- `isOk` flag of a rust.result. -/
def RResult.isOk {α : Type} : RResult α → Bool
  | .ok _ => true
  | .err _ => false

/-- `isErr` flag of a rust.result. -/
def RResult.isErr {α : Type} : RResult α → Bool
  | .ok _ => false
  | .err _ => true

/-- `unwrap()` (src/app.js lines 110-113): returns the value, or throws
`new Error(this.error)` when the result is a failure. -/
def RResult.unwrap {α : Type} : RResult α → Except String α
  | .ok v => .ok v
  | .err e => .error e

/-- The single error message thrown by `rust.own().borrow()`
(src/app.js line 82), raised both when the handle is already borrowed and
when it is dropped. -/
def borrowErrorMsg : String := "Cannot borrow: resource already borrowed or dropped"

/-- The state of a `rust.own` ownership handle (src/app.js lines 74-94):
the wrapped resource plus the `borrowed` / `dropped` flags. -/
structure Own (α : Type) where
  resource : α
  borrowed : Bool
  dropped : Bool
deriving DecidableEq

/-- `rust.own(resource)` (src/app.js line 74): a fresh handle,
neither borrowed nor dropped. -/
def rustOwn {α : Type} (resource : α) : Own α :=
  { resource := resource, borrowed := false, dropped := false }

/-- `handle.borrow()` (src/app.js lines 80-86): throws when the handle is
borrowed or dropped, otherwise marks it borrowed and yields the resource.
The returned resource aliases the handle contents, so later mutations of the
borrowed object are modelled by updating `resource` in the returned handle. -/
def Own.borrow {α : Type} (h : Own α) : Except String (α × Own α) :=
  if h.borrowed || h.dropped then .error borrowErrorMsg
  else .ok (h.resource, { h with borrowed := true })

/-- `handle.drop()` (src/app.js lines 88-93): a no-op on a dropped handle,
otherwise sets `dropped` and clears `borrowed`. -/
def Own.drop {α : Type} (h : Own α) : Own α :=
  if h.dropped then h else { h with dropped := true, borrowed := false }

/-! ## go essence (src/app.js lines 39-70) -/

/-- `go.concurrent(tasks)` = `Promise.all(tasks.map(go.goroutine))`
(src/app.js lines 54-69).  Each zero-argument task is represented by its
settled outcome (`ok` resolution or `error` rejection).  `setImmediate`
enqueues the goroutines in list order, so in this deterministic model the
first rejection is the first `error` in the list: `Promise.all` then rejects
with that reason and the outcomes of the other tasks are discarded.  When
every task resolves, the promise resolves with the values in task order. -/
def goConcurrent {α : Type} : List (Except String α) → Except String (List α)
  | [] => .ok []
  | Except.error e :: _ => .error e
  | Except.ok v :: rest =>
    match goConcurrent rest with
    | .ok vs => .ok (v :: vs)
    | .error e => .error e

/-! ## JavaScript Map and number-to-string helpers -/

/-- `Map.prototype.set` on an association list: replaces the value in place
when the key exists (keeping its insertion position), otherwise appends. -/
def mapSet {β : Type} : List (String × β) → String → β → List (String × β)
  | [], k, v => [(k, v)]
  | (k', v') :: rest, k, v =>
    if k' = k then (k, v) :: rest else (k', v') :: mapSet rest k v

/-- `Map.prototype.get` on an association list. -/
def mapGet {β : Type} : List (String × β) → String → Option β
  | [], _ => none
  | (k', v') :: rest, k => if k' = k then some v' else mapGet rest k

/-- Decimal rendering of a natural number, as produced by a JavaScript
template literal such as `${Date.now()}`.  `Nat.repr` is the Lean
counterpart (fuel-based, so it evaluates by `rfl`/`decide`). -/
def jsNatToString (n : Nat) : String := Nat.repr n

/-! ## JavaScript string primitives

Structural re-implementations of the string operations the source uses
(`split`, `trim`, `toUpperCase`, `startsWith`, `substring`, `slice`), so
that concrete runs reduce inside the kernel. -/

/-- Segment accumulator for `jsSplit`. -/
def jsSplitAux (sep : Char) : List Char → List Char → List String
  | [], acc => [⟨acc.reverse⟩]
  | c :: rest, acc =>
    if c = sep then ⟨acc.reverse⟩ :: jsSplitAux sep rest []
    else jsSplitAux sep rest (c :: acc)

/-- `String.prototype.split` with a one-character separator (the only kind
the source uses: space, newline, `:` and `=`); empty segments are kept. -/
def jsSplit (s : String) (sep : Char) : List String := jsSplitAux sep s.data []

/-- The whitespace class of `String.prototype.trim` (restricted to the
characters that can occur here). -/
def jsWhitespace (c : Char) : Bool := c = ' ' || c = '\t' || c = '\n' || c = '\r'

/-- `String.prototype.trim`. -/
def jsTrim (s : String) : String :=
  ⟨((s.data.dropWhile jsWhitespace).reverse.dropWhile jsWhitespace).reverse⟩

/-- `String.prototype.toUpperCase` on one character (ASCII). -/
def jsToUpperChar (c : Char) : Char :=
  if 'a' ≤ c && c ≤ 'z' then Char.ofNat (c.toNat - 32) else c

/-- `String.prototype.toUpperCase` (ASCII). -/
def jsToUpper (s : String) : String := ⟨s.data.map jsToUpperChar⟩

/-- `String.prototype.startsWith` with a one-character prefix (the only
kind the source uses). -/
def jsStartsWith (s : String) (c : Char) : Bool :=
  match s.data with
  | [] => false
  | c' :: _ => c' = c

/-- `String.prototype.substring(0, n)`. -/
def jsTake (s : String) (n : Nat) : String := ⟨s.data.take n⟩

/-- `String.prototype.slice(n)`. -/
def jsDrop (s : String) (n : Nat) : String := ⟨s.data.drop n⟩

/-! ## IsolationModule (src/app.js lines 213-343) -/

/-- Ambient `process.pid`, reported by `createNamespace`
(src/app.js line 254); modelled as a fixed value. -/
def processPid : Nat := 1

/-- A `linux.namespace(type)` object (src/app.js lines 123-131):
type tag, member process set, `isolated` flag. -/
structure LinuxNamespace where
  type : String
  processes : List Nat
  isolated : Bool
deriving DecidableEq

/-- Caller-supplied cgroup limits; `memory` / `cpu` are absent when the
caller does not override them (src/app.js line 135 spreads them over the
defaults). -/
structure CgroupLimits where
  memory : Option String
  cpu : Option String
deriving DecidableEq

/-- A `linux.cgroup(name, limits)` object (src/app.js lines 133-147) with
the defaults `{memory: 512m, cpu: 1.0}` merged under the overrides. -/
structure LinuxCgroup where
  name : String
  memoryLimit : String
  cpuLimit : String
  processes : List Nat
deriving DecidableEq

/-- `linux.cgroup` construction with default limits (src/app.js line 135). -/
def linuxCgroup (name : String) (limits : CgroupLimits) : LinuxCgroup :=
  { name := name
    memoryLimit := limits.memory.getD "512m"
    cpuLimit := limits.cpu.getD "1.0"
    processes := [] }

/-- The value wrapped by the `rust.result` that `createNamespace` returns
(src/app.js lines 251-256); the `namespace` key is `nsName` here because
`namespace` is a Lean keyword. -/
structure NamespaceResult where
  nsName : String
  type : String
  pid : Nat
  isolated : Bool
deriving DecidableEq

/-- The value wrapped by the `rust.result` that `createCgroup` returns
(src/app.js lines 264-268); it carries the raw caller limits, not the
merged ones. -/
structure CgroupResult where
  cgroup : String
  limits : CgroupLimits
  enforced : Bool
deriving DecidableEq

/-- The `data.config` payload of `isolate_container`: only
`config.resources` is read (src/app.js line 288). -/
structure IsolationConfig where
  resources : Option CgroupLimits
deriving DecidableEq

/-- The object owned through `rust.own` in `isolateContainer`
(src/app.js lines 273-281), after the merge writes of lines 294-295. -/
structure IsoContainer where
  id : String
  config : IsolationConfig
  namespaces : List NamespaceResult
  cgroups : List CgroupResult
  filesystem : Option String
  network : Option String
  pid : Option Nat
deriving DecidableEq

/-- The value wrapped by the `rust.result` that `isolateContainer` returns
(src/app.js lines 299-305). -/
structure IsolationResultRec where
  containerId : String
  isolated : Bool
  namespaces : Nat
  resourcesLimited : Bool
  securityContext : String
deriving DecidableEq

/-- The mutable state of an `IsolationModule` instance
(src/app.js lines 222-224): the `namespaces`, `cgroups` and `containers`
maps. -/
structure IsolationState where
  namespaces : List (String × LinuxNamespace)
  cgroups : List (String × LinuxCgroup)
  containers : List (String × Own IsoContainer)
deriving DecidableEq

/-- `IsolationModule.createNamespace(type, name)`
(src/app.js lines 246-257): builds a `linux.namespace`, stores it under
`name` (no duplicate check: an existing entry is silently replaced) and
returns a success result. -/
def createNamespace (st : IsolationState) (type name : String) :
    RResult NamespaceResult × IsolationState :=
  let ns : LinuxNamespace := { type := type, processes := [], isolated := true }
  (RResult.ok { nsName := name, type := type, pid := processPid, isolated := true },
   { st with namespaces := mapSet st.namespaces name ns })

/-- `IsolationModule.createCgroup(name, limits)`
(src/app.js lines 259-269): builds a `linux.cgroup` with merged default
limits, stores it under `name` (again silently replacing) and returns a
success result carrying the raw limits. -/
def createCgroup (st : IsolationState) (name : String) (limits : CgroupLimits) :
    RResult CgroupResult × IsolationState :=
  (RResult.ok { cgroup := name, limits := limits, enforced := true },
   { st with cgroups := mapSet st.cgroups name (linuxCgroup name limits) })

/-- `IsolationModule.isolateContainer(containerId, config)`
(src/app.js lines 271-306).  The four provisioning tasks are scheduled by
`go.concurrent` (`Promise.all` over `setImmediate` goroutines): they run in
queue order and none of them throws, so the settled array is their results
in task order; the state writes of the tasks are threaded in that order.
The fresh container handle is then borrowed (always succeeds), the borrowed
object is mutated with the unwrapped task results, and the handle is stored
still in the Borrowed state.  A thrown `unwrap` or borrow error would
propagate to the caller, hence the `Except` codomain. -/
def isolateContainer (st : IsolationState) (containerId : String)
    (config : IsolationConfig) :
    Except String (RResult IsolationResultRec × IsolationState) := do
  let (r1, st1) := createNamespace st "pid" (containerId ++ "_pid")
  let (r2, st2) := createNamespace st1 "net" (containerId ++ "_net")
  let (r3, st3) := createNamespace st2 "mnt" (containerId ++ "_mnt")
  let (r4, st4) := createCgroup st3 containerId (config.resources.getD { memory := none, cpu := none })
  let v1 ← r1.unwrap
  let v2 ← r2.unwrap
  let v3 ← r3.unwrap
  let v4 ← r4.unwrap
  let handle0 := rustOwn
    ({ id := containerId, config := config, namespaces := [], cgroups := [],
       filesystem := none, network := none, pid := none } : IsoContainer)
  let (c0, handle1) ← handle0.borrow
  let c1 := { c0 with namespaces := [v1, v2, v3], cgroups := [v4] }
  let handle2 := { handle1 with resource := c1 }
  let st5 := { st4 with containers := mapSet st4.containers containerId handle2 }
  return (RResult.ok
    { containerId := containerId, isolated := true,
      namespaces := c1.namespaces.length, resourcesLimited := true,
      securityContext := "restricted" }, st5)

/-- Whether an `isolateContainer` invocation neither threw nor returned a
failure result. -/
def isolationOutcomeOk :
    Except String (RResult IsolationResultRec × IsolationState) → Bool
  | .ok (.ok _, _) => true
  | _ => false

/-! ## ImageModule (src/app.js lines 349-604) -/

/-- Ambient `process.arch` (src/app.js line 404), modelled as a fixed
value. -/
def processArch : String := "x64"

/-- Ambient `process.platform` (src/app.js line 405), modelled as a fixed
value. -/
def processPlatform : String := "linux"

/-- One parsed build instruction (src/app.js lines 458-464):
upper-cased verb, the remaining words re-joined with single spaces, and the
trimmed original line. -/
structure Instruction where
  command : String
  args : String
  original : String
deriving DecidableEq

/-- `ImageModule.parseDockerfile(content)` (src/app.js lines 454-466):
split on newlines, keep the lines whose trim is non-empty and that do not
start with `#` (the comment test runs on the untrimmed line), then split
each trimmed line on single spaces into the verb and its argument words. -/
def parseDockerfile (content : String) : List Instruction :=
  ((jsSplit content '\n').filter
      (fun line => jsTrim line != "" && !(jsStartsWith line '#'))).map
    (fun line =>
      let parts := jsSplit (jsTrim line) ' '
      { command := jsToUpper (parts.headD "")
        args := String.intercalate " " parts.tail
        original := jsTrim line })

/-- One image layer, as built by `ImageModule.buildLayer`
(src/app.js lines 468-534): one constructor per `switch` branch, carrying
exactly the keys of the object literal that branch returns.  `COPY` may
leave `destination` undefined (missing) and `EXPOSE` stores `parseInt` of
its argument, which can be `NaN` (here `none`). -/
inductive Layer where
  | base (instruction baseImage : String) (size : Nat)
  | run (instruction command : String) (size : Nat)
  | copy (instruction source : String) (destination : Option String) (size : Nat)
  | env (instruction varName value : String) (size : Nat)
  | expose (instruction : String) (port : Option Int) (size : Nat)
  | entrypoint (instruction command : String) (size : Nat)
  | unknown (instruction : String) (size : Nat)
deriving DecidableEq

/-- The `type` tag of a layer (src/app.js lines 474, 483, 493, 503, 512,
521, 529). -/
def Layer.kind : Layer → String
  | .base _ _ _ => "base"
  | .run _ _ _ => "run"
  | .copy _ _ _ _ => "copy"
  | .env _ _ _ _ => "env"
  | .expose _ _ _ => "expose"
  | .entrypoint _ _ _ => "entrypoint"
  | .unknown _ _ => "unknown"

/-- The `size` field of a layer. -/
def Layer.size : Layer → Nat
  | .base _ _ s => s
  | .run _ _ s => s
  | .copy _ _ _ s => s
  | .env _ _ _ s => s
  | .expose _ _ s => s
  | .entrypoint _ _ s => s
  | .unknown _ s => s

/-- JavaScript `parseInt` on the strings that reach `EXPOSE`: optional
sign followed by the longest leading run of decimal digits of the trimmed
input; no digits gives `NaN`, here `none`. -/
def jsParseInt (s : String) : Option Int :=
  let t := jsTrim s
  let negative := jsStartsWith t '-'
  let body := if jsStartsWith t '-' || jsStartsWith t '+' then jsDrop t 1 else t
  let ds := body.data.takeWhile Char.isDigit
  if ds.isEmpty then none
  else
    let n : Nat := ds.foldl (fun a c => a * 10 + (c.toNat - 48)) 0
    if negative then some (-(n : Int)) else some (n : Int)

/-- `ImageModule.buildLayer(instruction, index, context)`
(src/app.js lines 468-534).  `index` and `context` do not influence the
produced layer.  `Math.random() * 50MB` (RUN) and `Math.random() * 10MB`
(COPY/ADD) are simulation sizes; each draw is modelled as consuming the
next value of the explicit `entropy` stream. -/
def buildLayer (instr : Instruction) (entropy : List Nat) : Layer × List Nat :=
  let inst := instr.command ++ " " ++ instr.args
  match instr.command with
  | "FROM" => (Layer.base inst instr.args (100 * 1024 * 1024), entropy)
  | "RUN" => (Layer.run inst instr.args (entropy.headD 0), entropy.tail)
  | "COPY" | "ADD" =>
    let parts := jsSplit instr.args ' '
    (Layer.copy inst (parts.headD "") parts[1]? (entropy.headD 0), entropy.tail)
  | "ENV" =>
    let parts := jsSplit instr.args '='
    (Layer.env inst (parts.headD "") (parts[1]?.getD "") 1024, entropy)
  | "EXPOSE" => (Layer.expose inst (jsParseInt instr.args) 1024, entropy)
  | "CMD" | "ENTRYPOINT" => (Layer.entrypoint inst instr.args 1024, entropy)
  | _ => (Layer.unknown inst 1024, entropy)

/-- The strictly sequential layer loop of `buildImage`
(src/app.js lines 419-423): one layer per instruction, in source order,
threading the entropy stream. -/
def buildLayers : List Instruction → List Nat → List Layer × List Nat
  | [], entropy => ([], entropy)
  | i :: rest, entropy =>
    let (l, e1) := buildLayer i entropy
    let (ls, e2) := buildLayers rest e1
    (l :: ls, e2)

/-- `JSON.stringify` of a string value; escaping is elided (no string in
scope contains a quote or backslash). -/
def jsonStr (s : String) : String := "\"" ++ s ++ "\""

/-- `JSON.stringify` of an optional `EXPOSE` port: `NaN` serializes to
`null`. -/
def jsonPort : Option Int → String
  | none => "null"
  | some p => if p < 0 then "-" ++ jsNatToString p.natAbs else jsNatToString p.toNat

/-- `JSON.stringify` of one layer object: keys in insertion order per
`switch` branch of `buildLayer`; an undefined `destination` is omitted, as
`JSON.stringify` drops undefined properties. -/
def layerJson : Layer → String
  | .base inst b size =>
    "\x7b\"type\":\"base\",\"instruction\":" ++ jsonStr inst ++
      ",\"baseImage\":" ++ jsonStr b ++ ",\"size\":" ++ jsNatToString size ++ "\x7d"
  | .run inst c size =>
    "\x7b\"type\":\"run\",\"instruction\":" ++ jsonStr inst ++
      ",\"command\":" ++ jsonStr c ++ ",\"size\":" ++ jsNatToString size ++ "\x7d"
  | .copy inst src dst size =>
    "\x7b\"type\":\"copy\",\"instruction\":" ++ jsonStr inst ++
      ",\"source\":" ++ jsonStr src ++
      (match dst with
       | some d => ",\"destination\":" ++ jsonStr d
       | none => "") ++
      ",\"size\":" ++ jsNatToString size ++ "\x7d"
  | .env inst k v size =>
    "\x7b\"type\":\"env\",\"instruction\":" ++ jsonStr inst ++
      ",\"variable\":" ++ jsonStr k ++ ",\"value\":" ++ jsonStr v ++
      ",\"size\":" ++ jsNatToString size ++ "\x7d"
  | .expose inst p size =>
    "\x7b\"type\":\"expose\",\"instruction\":" ++ jsonStr inst ++
      ",\"port\":" ++ jsonPort p ++ ",\"size\":" ++ jsNatToString size ++ "\x7d"
  | .entrypoint inst c size =>
    "\x7b\"type\":\"entrypoint\",\"instruction\":" ++ jsonStr inst ++
      ",\"command\":" ++ jsonStr c ++ ",\"size\":" ++ jsNatToString size ++ "\x7d"
  | .unknown inst size =>
    "\x7b\"type\":\"unknown\",\"instruction\":" ++ jsonStr inst ++
      ",\"size\":" ++ jsNatToString size ++ "\x7d"

/-- `JSON.stringify` of the layer array. -/
def layersJson (ls : List Layer) : String :=
  "[" ++ String.intercalate "," (ls.map layerJson) ++ "]"

/-- The SHA-256 hex digest from node:crypto
(`createHash('sha256').update(content).digest('hex')`, src/app.js
line 538).  Modelled as an injective digest: collision-freeness is
idealized by identifying the digest with the hashed content. -/
def sha256Hex (s : String) : String := s

/-- `ImageModule.generateImageId(name, layers)` (src/app.js lines 536-539):
the digest of `name : JSON.stringify(layers) : Date.now()`.  The clock read
`Date.now()` is the explicit `now` parameter. -/
def generateImageId (name : String) (layers : List Layer) (now : Nat) : String :=
  sha256Hex (name ++ ":" ++ layersJson layers ++ ":" ++ jsNatToString now)

/-- Image metadata (src/app.js lines 401-406); `created` is the ISO clock
string read at build start. -/
structure ImageMetadata where
  created : String
  author : String
  architecture : String
  os : String
deriving DecidableEq

/-- A stored image (src/app.js lines 427-434). -/
structure Image where
  id : String
  name : String
  tag : String
  layers : List Layer
  metadata : ImageMetadata
  size : Nat
deriving DecidableEq

/-- The value wrapped by the `rust.result` that a successful `buildImage`
returns (src/app.js lines 440-446). -/
structure BuildOk where
  imageId : String
  name : String
  tag : String
  layers : Nat
  size : Nat
deriving DecidableEq

/-- The mutable state of an `ImageModule` instance: the `images` map
(src/app.js line 352). -/
structure ImageState where
  images : List (String × Image)
deriving DecidableEq

/-- `ImageModule.buildImage(name, dockerfile, context)`
(src/app.js lines 388-452).  The `fs.readFile` of the build file is the
`dockerfileRead` parameter (`.error` when the read rejects); `createdAt` is
the ISO clock string of line 402 and `now` the `Date.now()` read inside
`generateImageId`.  The whole body runs in a try/catch: a read failure is
caught and returned as `rust.result(null, message)` with the image store
untouched.  The build-context handle is fresh, so its borrow succeeds, and
`buildLayer` never throws; the layer loop is strictly sequential.  On
success the image is stored under `name:latest`, overwriting any previous
entry. -/
def buildImage (st : ImageState) (name : String)
    (dockerfileRead : Except String String) (createdAt : String) (now : Nat)
    (entropy : List Nat) : RResult BuildOk × ImageState :=
  match dockerfileRead with
  | .error e => (RResult.err e, st)
  | .ok content =>
    let instructions := parseDockerfile content
    let (layers, _) := buildLayers instructions entropy
    let imageId := generateImageId name layers now
    let size := (layers.map Layer.size).sum
    let image : Image :=
      { id := imageId, name := name, tag := "latest", layers := layers,
        metadata :=
          { created := createdAt, author := "docker-nexus",
            architecture := processArch, os := processPlatform },
        size := size }
    (RResult.ok
      { imageId := imageId, name := name, tag := "latest",
        layers := layers.length, size := size },
     { st with images := mapSet st.images (name ++ ":latest") image })

/-- The image id produced by a `buildImage` invocation, when the build
succeeded. -/
def builtImageId (r : RResult BuildOk × ImageState) : Option String :=
  match r.fst with
  | .ok b => some b.imageId
  | .err _ => none

/-! ## RuntimeModule (src/app.js lines 610-868) -/

/-- One container log entry (src/app.js lines 761-765). -/
structure LogEntry where
  timestamp : String
  stream : String
  message : String
deriving DecidableEq

/-- The `options` payload of `run_container` as read by `runContainer`
(src/app.js lines 655-660); absent keys are `none`. -/
structure RunOptions where
  ports : Option (List String)
  env : Option (List String)
  volumes : Option (List String)
  interactive : Option Bool
  tty : Option Bool
  detached : Option Bool
deriving DecidableEq

/-- A container record, the object owned through `rust.own` in
`runContainer` (src/app.js lines 649-664); `error` is the property the
catch block adds at line 700 and `started` the timestamp of line 679. -/
structure ContainerRec where
  id : String
  image : String
  command : String
  status : String
  created : String
  ports : List String
  environment : List String
  volumes : List String
  interactive : Bool
  tty : Bool
  detached : Bool
  pid : Option Nat
  exitCode : Option Nat
  logs : List LogEntry
  error : Option String
  started : Option String
deriving DecidableEq

/-- The per-container network record built by `setupContainerNetwork`
(src/app.js lines 711-717). -/
structure NetworkRec where
  containerId : String
  bridge : String
  ip : String
  ports : List String
deriving DecidableEq

/-- The mock process record built by `startContainerProcess`
(src/app.js lines 734-740). -/
structure MockProcess where
  pid : Nat
  command : String
  started : Nat
  status : String
deriving DecidableEq

/-- The mutable state of a `RuntimeModule` instance
(src/app.js lines 612-615): the `containers`, `processes` and `networks`
maps. -/
structure RuntimeState where
  containers : List (String × Own ContainerRec)
  processes : List (String × MockProcess)
  networks : List (String × NetworkRec)
deriving DecidableEq

/-- The value wrapped by the `rust.result` that a successful
`runContainer` returns (src/app.js lines 690-696). -/
structure RunOk where
  containerId : String
  status : String
  image : String
  command : String
  ports : List String
deriving DecidableEq

/-- `command || '/bin/sh'` (src/app.js line 652): an absent or empty
command string is falsy in JavaScript and replaced by the default. -/
def jsCommandDefault : Option String → String
  | some s => if s = "" then "/bin/sh" else s
  | none => "/bin/sh"

/-- The message of the `TypeError` raised by
`this.goEssence.concurrent(...)` (src/app.js line 676): the `RuntimeModule`
constructor (lines 611-616) never assigns `this.goEssence` — only
`IsolationModule` does (line 219) — so the property is `undefined`. -/
def typeErrorMsg : String :=
  "Cannot read properties of undefined (reading \x27concurrent\x27)"

/-- `this.goEssence` as seen from `RuntimeModule`: never assigned, hence
`none` (src/app.js lines 611-616 versus line 219). -/
def runtimeGoEssence : Option Unit := none

/-- `RuntimeModule.setupContainerNetwork(containerId, options)`
(src/app.js lines 710-721): builds a simulated bridge attachment with a
random final IP octet (`Math.floor(Math.random() * 254) + 2`, modelled from
the next entropy value) and stores it in the `networks` map. -/
def setupContainerNetwork (st : RuntimeState) (containerId : String)
    (options : RunOptions) (entropy : List Nat) :
    NetworkRec × RuntimeState × List Nat :=
  let octet := entropy.headD 0 % 254 + 2
  let network : NetworkRec :=
    { containerId := containerId, bridge := "docker-nexus0",
      ip := "172.17.0." ++ jsNatToString octet, ports := options.ports.getD [] }
  (network, { st with networks := mapSet st.networks containerId network },
   entropy.tail)

/-- One mounted volume as built by `setupContainerVolumes`
(src/app.js lines 723-731); a `host:container` pair without a colon leaves
`container` undefined. -/
structure VolumeMount where
  host : String
  container : Option String
  mounted : Bool
deriving DecidableEq

/-- `RuntimeModule.setupContainerVolumes(containerId, options)`
(src/app.js lines 723-731). -/
def setupContainerVolumes (options : RunOptions) : List VolumeMount :=
  (options.volumes.getD []).map (fun v =>
    let parts := jsSplit v ':'
    { host := parts.headD "", container := parts[1]?, mounted := true })

/-- `RuntimeModule.startContainerProcess(container)`
(src/app.js lines 733-749): draws a mock pid
(`Math.floor(Math.random() * 30000) + 1000`, from the next entropy value),
writes it into the borrowed container record, stores the mock process, and
schedules deferred log lines through `setTimeout` (which leave `logs`
unchanged at return time). `started: Date.now()` is modelled as 0 under the
deterministic clock. -/
def startContainerProcess (st : RuntimeState) (c : ContainerRec)
    (entropy : List Nat) :
    MockProcess × ContainerRec × RuntimeState × List Nat :=
  let pid := entropy.headD 0 % 30000 + 1000
  let p : MockProcess :=
    { pid := pid, command := c.command, started := 0, status := "running" }
  (p, { c with pid := some pid },
   { st with processes := mapSet st.processes c.id p }, entropy.tail)

/-- What a `runContainer` invocation leaves behind: the returned
`rust.result`, the module state, and the local `containerResource` handle
at function exit (exposed for specification; the source discards it on the
failure path). -/
structure RunContainerRet where
  outcome : RResult RunOk
  state : RuntimeState
  localHandle : Own ContainerRec
deriving DecidableEq

/-- `RuntimeModule.runContainer(imageName, command, options)`
(src/app.js lines 643-704).  The generated 256-bit container id
(line 644/707) is the `containerId` parameter and the ISO clock reads of
lines 654 and 679 are `nowIso`.  The fresh record is wrapped in `rust.own`
and immediately borrowed (always succeeds).  The try block then evaluates
`this.goEssence.concurrent(startupTasks)`: `this.goEssence` is `undefined`
in `RuntimeModule`, so a `TypeError` is thrown before any startup task
runs; the catch block (lines 698-703) sets `status = failed`, stores the
message on the record and returns `rust.result(null, message)`.  On this
path `this.containers` is never updated.  The `some` branch spells out the
success path the try block was written for (lines 670-696): the three
startup tasks settle in queue order, the borrowed record is marked running
and the still-borrowed handle is stored. -/
def runContainer (st : RuntimeState) (imageName : String)
    (command : Option String) (options : RunOptions)
    (containerId nowIso : String) (entropy : List Nat) : RunContainerRet :=
  let record : ContainerRec :=
    { id := containerId, image := imageName,
      command := jsCommandDefault command, status := "created",
      created := nowIso, ports := options.ports.getD [],
      environment := options.env.getD [], volumes := options.volumes.getD [],
      interactive := options.interactive.getD false,
      tty := options.tty.getD false,
      detached := !(options.detached == some false),
      pid := none, exitCode := none, logs := [], error := none,
      started := none }
  match runtimeGoEssence with
  | none =>
    let failed := { record with status := "failed", error := some typeErrorMsg }
    { outcome := RResult.err typeErrorMsg,
      state := st,
      localHandle := { resource := failed, borrowed := true, dropped := false } }
  | some _ =>
    let (_, st1, e1) := setupContainerNetwork st containerId options entropy
    let _ := setupContainerVolumes options
    let (_, rec1, st2, _) := startContainerProcess st1 record e1
    let running := { rec1 with status := "running", started := some nowIso }
    let h : Own ContainerRec :=
      { resource := running, borrowed := true, dropped := false }
    { outcome := RResult.ok
        { containerId := containerId, status := "running", image := imageName,
          command := running.command, ports := running.ports },
      state := { st2 with containers := mapSet st2.containers containerId h },
      localHandle := h }

/-- A row of the `listContainers` listing (src/app.js lines 829-837). -/
structure ContSummary where
  containerId : String
  image : String
  command : String
  created : String
  status : String
  ports : List String
  names : List String
deriving DecidableEq

/-- The summary row built from a borrowed container record
(src/app.js lines 829-837). -/
def contSummary (c : ContainerRec) : ContSummary :=
  { containerId := jsTake c.id 12, image := c.image, command := c.command,
    created := c.created, status := c.status, ports := c.ports,
    names := ["nexus_" ++ jsTake c.id 8] }

/-- The `.map(r => r.borrow())` pass of `listContainers`
(src/app.js lines 826-838): borrows every stored handle in insertion
order.  The first handle that is already borrowed or dropped throws,
aborting the pass; handles borrowed before the throw stay borrowed (the
mutation is in place). -/
def borrowAll : List (String × Own ContainerRec) →
    Except String (List ContSummary) × List (String × Own ContainerRec)
  | [] => (.ok [], [])
  | (k, h) :: rest =>
    match h.borrow with
    | .error e => (.error e, (k, h) :: rest)
    | .ok (c, h') =>
      match borrowAll rest with
      | (.error e, rest') => (.error e, (k, h') :: rest')
      | (.ok tail, rest') => (.ok (contSummary c :: tail), (k, h') :: rest')

/-- `RuntimeModule.listContainers(showAll)` (src/app.js lines 825-843):
borrows and summarizes every stored container, then filters to
`status === running` unless `showAll`; a borrow failure propagates as a
thrown error. -/
def listContainers (st : RuntimeState) (showAll : Bool) :
    Except String (RResult (List ContSummary)) × RuntimeState :=
  let (r, cs') := borrowAll st.containers
  match r with
  | .error e => (.error e, { st with containers := cs' })
  | .ok all =>
    (.ok (RResult.ok (if showAll then all else all.filter (fun c => c.status == "running"))),
     { st with containers := cs' })

/-- The value wrapped by the `rust.result` that `getContainerLogs` returns
(src/app.js lines 852-855). -/
structure LogsOk where
  containerId : String
  logs : List LogEntry
deriving DecidableEq

/-- `RuntimeModule.getContainerLogs(containerId)`
(src/app.js lines 845-856): a missing container yields
`rust.result(null, Container not found)`; otherwise the stored handle is
borrowed (throwing when it is already borrowed or dropped) and the record
logs are returned. -/
def getContainerLogs (st : RuntimeState) (containerId : String) :
    Except String (RResult LogsOk) × RuntimeState :=
  match mapGet st.containers containerId with
  | none => (.ok (RResult.err "Container not found"), st)
  | some h =>
    match h.borrow with
    | .error e => (.error e, st)
    | .ok (c, h') =>
      (.ok (RResult.ok { containerId := containerId, logs := c.logs }),
       { st with containers := mapSet st.containers containerId h' })

/-! ## DockerNexusEngine routing (src/app.js lines 1488-1633) -/

/-- Per-module metrics row kept by `updateStats`
(src/app.js lines 1616-1633). -/
structure ModuleStats where
  operations : Nat
  totalTime : Nat
  avgTime : Nat
deriving DecidableEq

/-- `this.metrics` of the engine (src/app.js lines 1516-1520 and the lazy
`modules` table of lines 1617-1619). -/
structure EngineMetrics where
  commands : Nat
  errors : Nat
  modules : List (String × ModuleStats)
deriving DecidableEq

/-- `DockerModule.stats` (src/app.js line 167), one row per module
instance. -/
structure DModuleStats where
  operations : Nat
  errors : Nat
  lastOperation : Option String
deriving DecidableEq

/-- The engine state relevant to routing: the metrics plus each
subsystem module instance stats table. -/
structure EngineState where
  metrics : EngineMetrics
  moduleStats : List (String × DModuleStats)
deriving DecidableEq

/-- The `operationMap` routing table of `selectModule`
(src/app.js lines 1570-1610), in source order; the source object literal
repeats the three storage entries, which is kept here and is harmless
(first match wins with identical values). -/
def operationMap : List (String × String) :=
  [("build_image", "image"), ("pull_image", "image"), ("push_image", "image"),
   ("list_images", "image"), ("remove_image", "image"),
   ("inspect_image", "image"),
   ("run_container", "runtime"), ("start_container", "runtime"),
   ("stop_container", "runtime"), ("list_containers", "runtime"),
   ("exec_container", "runtime"), ("logs_container", "runtime"),
   ("create_network", "network"), ("list_networks", "network"),
   ("connect_container", "network"),
   ("create_volume", "storage"), ("list_volumes", "storage"),
   ("remove_volume", "storage"),
   ("create_volume", "storage"), ("list_volumes", "storage"),
   ("remove_volume", "storage"),
   ("isolate_container", "isolation"), ("setup_filesystem", "isolation"),
   ("start_server", "webserver"), ("stop_server", "webserver"),
   ("health_check_web", "webserver")]

/-- The keys of `this.modules` (src/app.js lines 1493-1499): the engine
constructs no `webserver` module, so `webserver`-routed operations resolve
to `undefined`. -/
def modulesKeys : List String :=
  ["isolation", "image", "runtime", "network", "storage"]

/-- `DockerNexusEngine.selectModule(operation)`
(src/app.js lines 1568-1614): looks the operation up in `operationMap` and
returns `this.modules[moduleName]`, which is `undefined` (`none`) both for
unmapped operations and for mapped names absent from `this.modules`. -/
def selectModule (op : String) : Option String :=
  match mapGet operationMap op with
  | some m => if modulesKeys.contains m then some m else none
  | none => none

/-- `DockerNexusEngine.updateStats(moduleName, operation, executionTime)`
(src/app.js lines 1616-1633): lazily creates the per-module row, bumps its
operation count and total time and recomputes the average (integer
division under this model). -/
def updateStats (m : EngineMetrics) (moduleName : String) (t : Nat) :
    EngineMetrics :=
  let cur := (mapGet m.modules moduleName).getD
    { operations := 0, totalTime := 0, avgTime := 0 }
  let ops := cur.operations + 1
  let total := cur.totalTime + t
  let row : ModuleStats := { operations := ops, totalTime := total, avgTime := total / ops }
  { m with modules := mapSet m.modules moduleName row }

/-- The object returned by `DockerNexusEngine.execute`
(src/app.js lines 1547-1553 and 1559-1564): a tagged outcome, never a
thrown error. -/
structure Outcome (α : Type) where
  success : Bool
  moduleName : Option String
  operation : String
  result : Option α
  errorMsg : Option String
  executionTime : Nat
deriving DecidableEq

/-- `DockerNexusEngine.execute(operation, data, options)`
(src/app.js lines 1526-1566), embedded at the routing layer: `call` stands
for `module.process(operation, data, options)` together with its state
effects (the individual module operations are embedded above); the
deterministic clock makes every `executionTime` 0.  `this.metrics.commands`
is bumped first; an operation with no module throws
`No module found for operation` inside the try, so the catch returns a
`success: false` outcome after bumping `this.metrics.errors`, and neither
`updateStats` nor any module (hence no per-module counter) is reached. -/
def execute {α : Type} (call : EngineState → String → Except String α × EngineState)
    (st : EngineState) (op : String) : Outcome α × EngineState :=
  let st1 := { st with metrics := { st.metrics with commands := st.metrics.commands + 1 } }
  match selectModule op with
  | none =>
    ({ success := false, moduleName := none, operation := op, result := none,
       errorMsg := some ("No module found for operation: " ++ op),
       executionTime := 0 },
     { st1 with metrics := { st1.metrics with errors := st1.metrics.errors + 1 } })
  | some m =>
    match call st1 op with
    | (.error e, st2) =>
      ({ success := false, moduleName := none, operation := op, result := none,
         errorMsg := some e, executionTime := 0 },
       { st2 with metrics := { st2.metrics with errors := st2.metrics.errors + 1 } })
    | (.ok v, st2) =>
      ({ success := true, moduleName := some m, operation := op,
         result := some v, errorMsg := none, executionTime := 0 },
       { st2 with metrics := updateStats st2.metrics m 0 })

/-! ## Specification helpers -/

/-- Decoding of a decimal digit character, inverse to `Nat.digitChar` on
`0..9`; used to specify the decimal rendering inside `generateImageId`. -/
def charToDigit (c : Char) : Nat :=
  if c = '0' then 0 else if c = '1' then 1 else if c = '2' then 2 else
  if c = '3' then 3 else if c = '4' then 4 else if c = '5' then 5 else
  if c = '6' then 6 else if c = '7' then 7 else if c = '8' then 8 else
  if c = '9' then 9 else 0

/-- Value of a decimal digit string, inverse to `jsNatToString`. -/
def decValue (l : List Char) : Nat :=
  l.foldl (fun a c => a * 10 + charToDigit c) 0

/-! ## Helper lemmas -/

theorem charToDigit_digitChar (d : Nat) (h : d < 10) :
    charToDigit (Nat.digitChar d) = d := by
  interval_cases d <;> rfl

theorem toDigitsCore_acc (fuel : Nat) :
    ∀ (n : Nat) (ds : List Char),
      Nat.toDigitsCore 10 fuel n ds = Nat.toDigitsCore 10 fuel n [] ++ ds := by
  induction fuel with
  | zero => intro n ds; simp [Nat.toDigitsCore]
  | succ fuel ih =>
    intro n ds
    simp only [Nat.toDigitsCore]
    by_cases h : n / 10 = 0
    · simp [h]
    · simp only [h, if_false]
      rw [ih (n / 10) [Nat.digitChar (n % 10)],
        ih (n / 10) (Nat.digitChar (n % 10) :: ds), List.append_assoc]
      rfl

theorem decValue_toDigitsCore (fuel : Nat) :
    ∀ n : Nat, n < 10 ^ fuel → decValue (Nat.toDigitsCore 10 fuel n []) = n := by
  induction fuel with
  | zero =>
    intro n hn
    interval_cases n
    simp [Nat.toDigitsCore, decValue]
  | succ fuel ih =>
    intro n hn
    simp only [Nat.toDigitsCore]
    by_cases h : n / 10 = 0
    · have hlt : n < 10 := by omega
      simp [h, decValue, charToDigit_digitChar (n % 10) (Nat.mod_lt n (by norm_num))]
      omega
    · have hdiv : n / 10 < 10 ^ fuel := by
        rw [Nat.div_lt_iff_lt_mul (by norm_num : (0:Nat) < 10)]
        calc n < 10 ^ (fuel + 1) := hn
        _ = 10 ^ fuel * 10 := by ring
      simp only [h, if_false]
      rw [toDigitsCore_acc, decValue, List.foldl_append]
      have hrec := ih (n / 10) hdiv
      simp only [decValue] at hrec
      rw [hrec]
      simp [charToDigit_digitChar (n % 10) (Nat.mod_lt n (by norm_num))]
      omega

theorem jsNatToString_inj (m n : Nat) (h : jsNatToString m = jsNatToString n) :
    m = n := by
  have hdata : Nat.toDigits 10 m = Nat.toDigits 10 n := congrArg String.data h
  have hm : decValue (Nat.toDigits 10 m) = m := by
    have hb : m < 10 ^ (m + 1) :=
      lt_of_lt_of_le (Nat.lt_pow_self (by norm_num) m)
        (Nat.pow_le_pow_right (by norm_num) (Nat.le_succ m))
    simpa [Nat.toDigits] using decValue_toDigitsCore (m + 1) m hb
  have hn : decValue (Nat.toDigits 10 n) = n := by
    have hb : n < 10 ^ (n + 1) :=
      lt_of_lt_of_le (Nat.lt_pow_self (by norm_num) n)
        (Nat.pow_le_pow_right (by norm_num) (Nat.le_succ n))
    simpa [Nat.toDigits] using decValue_toDigitsCore (n + 1) n hb
  rw [← hm, ← hn, hdata]

theorem string_append_cancel_left (p a b : String) (h : p ++ a = p ++ b) :
    a = b := by
  obtain ⟨pd⟩ := p
  obtain ⟨ad⟩ := a
  obtain ⟨bd⟩ := b
  have hd : pd ++ ad = pd ++ bd := congrArg String.data h
  have : ad = bd := List.append_cancel_left hd
  rw [this]

theorem mapGet_mapSet {β : Type} (m : List (String × β)) (k : String) (v : β) :
    mapGet (mapSet m k v) k = some v := by
  induction m with
  | nil => simp [mapSet, mapGet]
  | cons hd tl ih =>
    obtain ⟨k', v'⟩ := hd
    by_cases hk : k' = k
    · simp [mapSet, mapGet, hk]
    · simp [mapSet, mapGet, hk, ih]

theorem mapGet_mem {β : Type} (m : List (String × β)) (k : String) (v : β)
    (h : mapGet m k = some v) : (k, v) ∈ m := by
  induction m with
  | nil => simp [mapGet] at h
  | cons hd tl ih =>
    obtain ⟨k', v'⟩ := hd
    by_cases hk : k' = k
    · simp [mapGet, hk] at h
      simp [hk, h]
    · simp [mapGet, hk] at h
      exact List.mem_cons_of_mem _ (ih h)

theorem borrowAll_error (l : List (String × Own ContainerRec))
    (h : ∃ p ∈ l, p.2.borrowed = true ∨ p.2.dropped = true) :
    (borrowAll l).fst = Except.error borrowErrorMsg := by
  induction l with
  | nil => simp at h
  | cons hd tl ih =>
    obtain ⟨k, hh⟩ := hd
    cases hb : (hh.borrowed || hh.dropped) with
    | true => simp [borrowAll, Own.borrow, hb]
    | false =>
      have hb' : hh.borrowed = false ∧ hh.dropped = false := by
        simpa using hb
      obtain ⟨p, hp, hflag⟩ := h
      have hptl : p ∈ tl := by
        rcases List.mem_cons.mp hp with heq | hmem
        · exfalso
          rw [heq] at hflag
          simp [hb'.1, hb'.2] at hflag
        · exact hmem
      have htl := ih ⟨p, hptl, hflag⟩
      rcases hbt : borrowAll tl with ⟨r, rest'⟩
      rw [hbt] at htl
      simp only at htl
      subst htl
      simp [borrowAll, Own.borrow, hb, hbt]

/-! ## Claim C1 -/

/-- Claim C1 counterexample: the task runner does not return a positionally
aligned result list when a task fails.  With three tasks whose middle one
rejects, `go.concurrent` (`Promise.all`) yields only the rejection reason;
the results of the first and third tasks are not visible to the caller. -/
theorem c1_counterexample :
    goConcurrent [Except.ok (1 : Nat), Except.error "task failure", Except.ok 3] =
      Except.error "task failure" := rfl

/-- Claim C1 (amended): when every task succeeds, `go.concurrent` returns
the list of their results positionally aligned with the task list; when
some task fails, the call fails with the first failing task error and no
per-task result list is produced (`Promise.all` short-circuits). -/
theorem c1_amended :
    (∀ (α : Type) (vs : List α), goConcurrent (vs.map Except.ok) = Except.ok vs) ∧
    (∀ (α : Type) (pre : List α) (e : String) (post : List (Except String α)),
      goConcurrent (pre.map Except.ok ++ Except.error e :: post) = Except.error e) := by
  constructor
  · intro α vs
    induction vs with
    | nil => rfl
    | cons v rest ih => simp [goConcurrent, ih]
  · intro α pre e post
    induction pre with
    | nil => rfl
    | cons v rest ih => simp [goConcurrent, ih]

/-! ## Claim C6 -/

/-- Claim C6: for every ResourceHandle, a second `borrow` without an
intervening `drop` fails (the state is Borrowed, so the ownership error of
src/app.js line 82 is thrown); `borrow` after `drop` fails with the same
ownership error (state Dropped); and a second `drop` is a no-op, not an
error. -/
theorem c6_handle_discipline :
    (∀ (α : Type) (h : Own α) (v : α) (h' : Own α),
      h.borrow = Except.ok (v, h') → h'.borrow = Except.error borrowErrorMsg) ∧
    (∀ (α : Type) (h : Own α),
      (h.drop).borrow = Except.error borrowErrorMsg ∧ h.drop.drop = h.drop) := by
  constructor
  · intro α h v h' hb
    unfold Own.borrow at hb
    by_cases hc : (h.borrowed || h.dropped) = true
    · simp [hc] at hb
    · simp [hc] at hb
      rw [← hb.2]
      simp [Own.borrow]
  · intro α h
    by_cases hd : h.dropped = true
    · constructor
      · simp [Own.drop, hd, Own.borrow]
      · simp [Own.drop, hd]
    · constructor
      · simp [Own.drop, hd, Own.borrow]
      · simp [Own.drop, hd]

/-- Claim C6 witness: the fresh handle around the value 0 borrows once
successfully, and the second borrow fails with the ownership error. -/
theorem c6_witness :
    Own.borrow { resource := (0 : Nat), borrowed := true, dropped := false } =
      Except.error borrowErrorMsg :=
  c6_handle_discipline.1 Nat
    { resource := 0, borrowed := false, dropped := false } 0
    { resource := 0, borrowed := true, dropped := false } rfl

/-! ## Claim C7 -/

/-- Claim C7: when reading the build file fails, the whole build aborts
with a failure result (the thrown read error is caught and returned as
`rust.result(null, message)`, never a crash) and the image store is left
unchanged, so no image is registered.  (`buildLayer` itself is total, so a
read failure is the only failure mode of `buildImage`.) -/
theorem c7_build_read_failure :
    ∀ (st : ImageState) (name e createdAt : String) (now : Nat)
      (entropy : List Nat),
      buildImage st name (Except.error e) createdAt now entropy =
        (RResult.err e, st) := by
  intro st name e createdAt now entropy
  rfl

/-! ## Claim C8 -/

/-- Claim C8 counterexample: with the name `ns1` already allocated in the
namespace table, `createNamespace` does not fail with a duplicate error; it
returns a success result and silently replaces the stored namespace. -/
theorem c8_counterexample :
    createNamespace
      { namespaces := [("ns1", { type := "pid", processes := [], isolated := true })],
        cgroups := [], containers := [] } "net" "ns1" =
      (RResult.ok { nsName := "ns1", type := "net", pid := processPid, isolated := true },
       { namespaces := [("ns1", { type := "net", processes := [], isolated := true })],
         cgroups := [], containers := [] }) := rfl

/-- Claim C8 (amended): `createNamespace` never fails: for every state it
returns a success result, and the namespace stored under the requested name
afterwards is the newly created one — an existing allocation is silently
replaced rather than reported as a duplicate. -/
theorem c8_amended :
    ∀ (st : IsolationState) (type name : String),
      ((createNamespace st type name).fst).isOk = true ∧
      mapGet (createNamespace st type name).snd.namespaces name =
        some { type := type, processes := [], isolated := true } := by
  intro st type name
  exact ⟨rfl, mapGet_mapSet _ _ _⟩

/-! ## Claim C3 -/

/-- Claim C3 counterexample: the failure behaviour the claim describes
does not exist in the code.  First, the task runner used by
`isolateContainer` (`go.concurrent` = `Promise.all`) short-circuits: with
the net-namespace task (second of four) failing, the call returns only
that error — no results for the pid and mnt tasks and no
`PartialIsolationFailure` value.  Second, at a concrete input the four
provisioning tasks of `isolateContainer` all succeed and the whole
operation returns a plain success. -/
theorem c3_counterexample :
    goConcurrent
      [Except.ok "pid namespace", Except.error "net namespace failed",
       Except.ok "mnt namespace", Except.ok "cgroup"] =
      Except.error "net namespace failed" ∧
    isolationOutcomeOk
      (isolateContainer { namespaces := [], cgroups := [], containers := [] }
        "c1" { resources := none }) = true := ⟨rfl, rfl⟩

/-- Claim C3 (amended): the four provisioning tasks of `isolateContainer`
(pid, net, mnt namespaces and the control group) can never fail, so
`isolateContainer` always succeeds, registering exactly those four
resources and the borrowed container handle; there is no
`PartialIsolationFailure` outcome.  Had a task failed, the
`Promise.all`-based runner would surface only the first rejection and
discard the results of the succeeded tasks. -/
theorem c3_amended :
    (∀ (st : IsolationState) (cid : String) (cfg : IsolationConfig),
      isolateContainer st cid cfg =
        Except.ok (RResult.ok
          { containerId := cid, isolated := true, namespaces := 3,
            resourcesLimited := true, securityContext := "restricted" },
          { namespaces :=
              mapSet (mapSet (mapSet st.namespaces (cid ++ "_pid")
                  { type := "pid", processes := [], isolated := true })
                (cid ++ "_net") { type := "net", processes := [], isolated := true })
                (cid ++ "_mnt") { type := "mnt", processes := [], isolated := true },
            cgroups := mapSet st.cgroups cid
              (linuxCgroup cid (cfg.resources.getD { memory := none, cpu := none })),
            containers := mapSet st.containers cid
              { resource :=
                  { id := cid, config := cfg,
                    namespaces :=
                      [{ nsName := cid ++ "_pid", type := "pid",
                         pid := processPid, isolated := true },
                       { nsName := cid ++ "_net", type := "net",
                         pid := processPid, isolated := true },
                       { nsName := cid ++ "_mnt", type := "mnt",
                         pid := processPid, isolated := true }],
                    cgroups :=
                      [{ cgroup := cid,
                         limits := cfg.resources.getD { memory := none, cpu := none },
                         enforced := true }],
                    filesystem := none, network := none, pid := none },
                borrowed := true, dropped := false } })) ∧
    (∀ (α : Type) (v : α) (e : String) (rest : List (Except String α)),
      goConcurrent (Except.ok v :: Except.error e :: rest) = Except.error e) := by
  constructor
  · intro st cid cfg
    rfl
  · intro α v e rest
    rfl

/-! ## Claim C9 -/

/-- Claim C9: building yields exactly one layer per parsed instruction, in
order; the instruction list `FROM alpine / RUN apk add curl / EXPOSE 8080`
yields exactly the kind sequence `base, run, expose`; and an instruction
with an unrecognized verb produces a layer of kind `unknown` instead of
failing the build (`buildLayer` is total). -/
theorem c9_layers :
    (∀ (instrs : List Instruction) (entropy : List Nat),
      ((buildLayers instrs entropy).fst).length = instrs.length) ∧
    ((buildLayers (parseDockerfile "FROM alpine\nRUN apk add curl\nEXPOSE 8080")
        [5]).fst.map Layer.kind = ["base", "run", "expose"]) ∧
    (∀ (i : Instruction) (entropy : List Nat),
      i.command ∉
        (["FROM", "RUN", "COPY", "ADD", "ENV", "EXPOSE", "CMD", "ENTRYPOINT"] :
          List String) →
      ((buildLayer i entropy).fst).kind = "unknown") := by
  refine ⟨?_, by decide, ?_⟩
  · intro instrs entropy
    induction instrs generalizing entropy with
    | nil => rfl
    | cons i rest ih => simp [buildLayers, ih]
  · intro i entropy hn
    simp only [List.mem_cons, List.not_mem_nil, or_false] at hn
    push_neg at hn
    obtain ⟨h1, h2, h3, h4, h5, h6, h7, h8⟩ := hn
    simp [buildLayer, Layer.kind, h1, h2, h3, h4, h5, h6, h7, h8]

/-- Claim C9 witness: the unrecognized verb `WORKDIR` yields an `unknown`
layer. -/
theorem c9_witness :
    ((buildLayer ⟨"WORKDIR", "/app", "WORKDIR /app"⟩ []).fst).kind = "unknown" :=
  c9_layers.2.2 ⟨"WORKDIR", "/app", "WORKDIR /app"⟩ [] (by decide)

/-! ## Claim C10 -/

/-- Claim C10: dispatching an operation name with no route returns a
tagged `success: false` outcome (the routing error is caught inside
`execute`, not thrown past it), and neither the per-module metrics table
nor any module stats row changes — only the engine-wide `commands` and
`errors` counters are bumped.  This holds whatever the module dispatch
`call` would have done. -/
theorem c10_no_route :
    ∀ (α : Type) (call : EngineState → String → Except String α × EngineState)
      (st : EngineState) (op : String),
      selectModule op = none →
      execute call st op =
        ({ success := false, moduleName := none, operation := op, result := none,
           errorMsg := some ("No module found for operation: " ++ op),
           executionTime := 0 },
         { metrics :=
            { commands := st.metrics.commands + 1,
              errors := st.metrics.errors + 1,
              modules := st.metrics.modules },
           moduleStats := st.moduleStats }) := by
  intro α call st op h
  simp [execute, h]

/-- Claim C10 witness: `dispatch("not_a_real_op")` on a fresh engine
yields the no-route failure outcome and leaves every per-module counter
table empty and untouched. -/
theorem c10_witness :
    execute (fun st _ => (Except.ok (0 : Nat), st))
      { metrics := { commands := 0, errors := 0, modules := [] },
        moduleStats := [] } "not_a_real_op" =
      ({ success := false, moduleName := none, operation := "not_a_real_op",
         result := none,
         errorMsg := some ("No module found for operation: " ++ "not_a_real_op"),
         executionTime := 0 },
       { metrics := { commands := 1, errors := 1, modules := [] },
         moduleStats := [] }) :=
  c10_no_route Nat (fun st _ => (Except.ok 0, st))
    { metrics := { commands := 0, errors := 0, modules := [] },
      moduleStats := [] } "not_a_real_op" (by decide)

/-! ## Claim C2 -/

/-- Claim C2, evaluated at the failing input (`run_container` of the image
`alpine` on a fresh engine): `this.goEssence` is undefined in
`RuntimeModule`, so `runContainer` throws a `TypeError` before any setup
task runs; the catch block marks the record `failed` with the stored
reason and returns a tagged failure — but the container is never added to
`this.containers`, so `listContainers(true)` on the resulting state
returns the empty listing instead of including the failed container. -/
theorem c2_run_container_eval :
    runContainer { containers := [], processes := [], networks := [] }
        "alpine" none
        { ports := none, env := none, volumes := none, interactive := none,
          tty := none, detached := none }
        "cid1" "2024-01-01T00:00:00.000Z" [] =
      { outcome := RResult.err typeErrorMsg,
        state := { containers := [], processes := [], networks := [] },
        localHandle :=
          { resource :=
              { id := "cid1", image := "alpine", command := "/bin/sh",
                status := "failed", created := "2024-01-01T00:00:00.000Z",
                ports := [], environment := [], volumes := [],
                interactive := false, tty := false, detached := true,
                pid := none, exitCode := none, logs := [],
                error := some typeErrorMsg, started := none },
            borrowed := true, dropped := false } } ∧
    (listContainers { containers := [], processes := [], networks := [] }
        true).fst = Except.ok (RResult.ok []) := ⟨rfl, rfl⟩

/-! ## Claim C4 -/

/-- Claim C4 counterexample: the claimed scenario is unreachable — no
`runContainer` invocation ever returns a success, because the missing
`goEssence` property makes every run fail before the container is stored. -/
theorem c4_counterexample :
    ¬ ∃ (st : RuntimeState) (img : String) (cmd : Option String)
        (opts : RunOptions) (cid nowIso : String) (entropy : List Nat),
        ((runContainer st img cmd opts cid nowIso entropy).outcome).isOk = true := by
  rintro ⟨st, img, cmd, opts, cid, nowIso, entropy, h⟩
  have he : (runContainer st img cmd opts cid nowIso entropy).outcome =
      RResult.err typeErrorMsg := rfl
  rw [he] at h
  simp [RResult.isOk] at h

/-- Claim C4 (amended): `runContainer` always fails with the `TypeError`
of the missing `goEssence`, leaves the module state unchanged (so nothing
is ever stored through `run_container`), and its local handle ends
borrowed (never dropped) around a record marked `failed`.  For any state
that does hold a Borrowed container handle, `listContainers` (in either
view) and `getContainerLogs` for that container throw the borrow error
instead of returning a read-only snapshot. -/
theorem c4_amended :
    (∀ (st : RuntimeState) (img : String) (cmd : Option String)
        (opts : RunOptions) (cid nowIso : String) (entropy : List Nat),
      (runContainer st img cmd opts cid nowIso entropy).outcome =
          RResult.err typeErrorMsg ∧
      (runContainer st img cmd opts cid nowIso entropy).state = st ∧
      (runContainer st img cmd opts cid nowIso entropy).localHandle.borrowed
          = true ∧
      (runContainer st img cmd opts cid nowIso entropy).localHandle.resource.status
          = "failed") ∧
    (∀ (st : RuntimeState) (cid : String) (h : Own ContainerRec)
        (showAll : Bool),
      mapGet st.containers cid = some h → h.borrowed = true →
      (listContainers st showAll).fst = Except.error borrowErrorMsg ∧
      (getContainerLogs st cid).fst = Except.error borrowErrorMsg) := by
  constructor
  · intro st img cmd opts cid nowIso entropy
    exact ⟨rfl, rfl, rfl, rfl⟩
  · intro st cid h showAll hget hb
    constructor
    · have hmem := mapGet_mem st.containers cid h hget
      have herr := borrowAll_error st.containers ⟨(cid, h), hmem, Or.inl hb⟩
      rcases hbt : borrowAll st.containers with ⟨r, rest'⟩
      rw [hbt] at herr
      simp only at herr
      subst herr
      simp [listContainers, hbt]
    · simp [getContainerLogs, hget, Own.borrow, hb]

/-- Claim C4 witness: a state holding one Borrowed container handle makes
`listContainers(true)` and `getContainerLogs` throw the borrow error. -/
theorem c4_witness :
    (listContainers
      { containers :=
          [("c1",
            { resource := ⟨"c1", "alpine", "/bin/sh", "running", "t", [], [],
                [], false, false, true, none, none, [], none, none⟩,
              borrowed := true, dropped := false })],
        processes := [], networks := [] } true).fst =
      Except.error borrowErrorMsg ∧
    (getContainerLogs
      { containers :=
          [("c1",
            { resource := ⟨"c1", "alpine", "/bin/sh", "running", "t", [], [],
                [], false, false, true, none, none, [], none, none⟩,
              borrowed := true, dropped := false })],
        processes := [], networks := [] } "c1").fst =
      Except.error borrowErrorMsg :=
  c4_amended.2
    { containers :=
        [("c1",
          { resource := ⟨"c1", "alpine", "/bin/sh", "running", "t", [], [],
              [], false, false, true, none, none, [], none, none⟩,
            borrowed := true, dropped := false })],
      processes := [], networks := [] } "c1"
    { resource := ⟨"c1", "alpine", "/bin/sh", "running", "t", [], [],
        [], false, false, true, none, none, [], none, none⟩,
      borrowed := true, dropped := false } true rfl rfl

/-! ## Claim C5 -/

set_option maxRecDepth 200000 in
/-- Claim C5 counterexample: replaying the identical build (same name,
same instruction list, same timestamp) does not reproduce the image id
when the build contains a `RUN` instruction, because the run layer size is
a fresh `Math.random()` draw that enters the serialized layer manifest and
hence the digest.  Both builds succeed, yet their ids differ. -/
theorem c5_counterexample :
    builtImageId (buildImage { images := [] } "myapp"
        (Except.ok "FROM alpine\nRUN apk add curl") "2024-01-01" 1000 [7]) ≠
      builtImageId (buildImage { images := [] } "myapp"
        (Except.ok "FROM alpine\nRUN apk add curl") "2024-01-01" 1000 [8]) ∧
    (builtImageId (buildImage { images := [] } "myapp"
        (Except.ok "FROM alpine\nRUN apk add curl") "2024-01-01" 1000 [7])).isSome
      = true := by
  refine ⟨by decide, by decide⟩

/-- Claim C5 (amended): the image id is the digest of exactly
`(name, serialized layer manifest, Date.now())`: builds of the same name
and instruction list at different timestamps get different ids, and the
id does not depend on the image store or on the metadata clock — replaying
with a fixed timestamp reproduces the id only when the entropy feeding the
`RUN`/`COPY` layer sizes is also fixed (see the counterexample). -/
theorem c5_amended :
    (∀ (name : String) (layers : List Layer) (t1 t2 : Nat), t1 ≠ t2 →
      generateImageId name layers t1 ≠ generateImageId name layers t2) ∧
    (∀ (st st' : ImageState) (name content c1 c2 : String) (now : Nat)
        (entropy : List Nat),
      builtImageId (buildImage st name (Except.ok content) c1 now entropy) =
        builtImageId (buildImage st' name (Except.ok content) c2 now entropy)) := by
  constructor
  · intro name layers t1 t2 hne heq
    apply hne
    apply jsNatToString_inj
    exact string_append_cancel_left
      (name ++ ":" ++ layersJson layers ++ ":") _ _ heq
  · intro st st' name content c1 c2 now entropy
    rfl

/-- Claim C5 witness: concrete distinct timestamps yield distinct ids for
the same name and layer list. -/
theorem c5_witness :
    generateImageId "app" [] 1 ≠ generateImageId "app" [] 2 :=
  c5_amended.1 "app" [] 1 2 (by decide)

end DockerNexus
